import Mathlib

set_option maxHeartbeats 1000000

/-!
Shallow embedding of the go-checkout client library.

The embedding covers the generic call dispatcher `Client.Call` (client.go),
its status-code interpretation and error-envelope decoding (error.go), and
the payment entity client (payment/client.go).  HTTP transport results are
modelled explicitly; request bodies and response bodies are modelled as
parsed JSON values (with a separate constructor for bytes that are not valid
JSON).  Reading and closing an in-memory response body always succeeds in
this model.
-/

/-- JSON values, modelling the terms `encoding/json` works with.  Numbers are
modelled as integers: the bodies this client exchanges carry only integral
numbers. -/
inductive Json where
  | null : Json
  | bool : Bool → Json
  | num : Int → Json
  | str : String → Json
  | arr : List Json → Json
  | obj : List (String × Json) → Json

/-- A response body as delivered by the transport: either bytes that are not
valid JSON, or a parsed JSON document. -/
inductive Body where
  | malformed : String → Body
  | json : Json → Body

/-- ErrorResponse mirrors `checkout.ErrorResponse` (error.go): the API error
envelope with request id, error type and error codes. -/
structure ErrorResponse where
  request_id : String
  error_type : String
  error_codes : List String
deriving DecidableEq, Inhabited

/-- Decode a JSON array into the `error_codes` field, following Go
`json.Unmarshal` semantics for `[]string`: every element must be a string,
except that a JSON null element leaves the zero value `""`. -/
def decodeStrings : List Json → Option (List String)
  | [] => some []
  | Json.str s :: rest => (decodeStrings rest).map (fun l => s :: l)
  | Json.null :: rest => (decodeStrings rest).map (fun l => "" :: l)
  | _ => none

/-- One step of decoding a JSON object field into an `ErrorResponse`,
following Go `json.Unmarshal` struct semantics: known keys must carry a value
of the right type (null leaves the field untouched), unknown keys are
ignored, later duplicates overwrite earlier ones. -/
def setEnvelopeField (er : ErrorResponse) : String × Json → Option ErrorResponse
  | ("request_id", Json.str s) => some { er with request_id := s }
  | ("request_id", Json.null) => some er
  | ("request_id", _) => none
  | ("error_type", Json.str s) => some { er with error_type := s }
  | ("error_type", Json.null) => some er
  | ("error_type", _) => none
  | ("error_codes", Json.arr xs) => (decodeStrings xs).map (fun l => { er with error_codes := l })
  | ("error_codes", Json.null) => some { er with error_codes := [] }
  | ("error_codes", _) => none
  | (_, _) => some er

/-- Decoding of a response body into the error envelope, modelling
`json.Unmarshal(respBody, &errorResponse)`: fails on bytes that are not valid
JSON and on a document that is not an object (a top-level null succeeds and
leaves the zero value, as in Go). -/
def decodeErrorResponse : Body → Option ErrorResponse
  | Body.malformed _ => none
  | Body.json Json.null => some { request_id := "", error_type := "", error_codes := [] }
  | Body.json (Json.obj fields) =>
      fields.foldlM setEnvelopeField { request_id := "", error_type := "", error_codes := [] }
  | Body.json _ => none

/-- ServerError mirrors `checkout.ServerError` (error.go): status code plus
the optionally decoded error envelope (`Response` is a possibly-nil
pointer). -/
structure ServerError where
  StatusCode : Nat
  Response : Option ErrorResponse
deriving DecidableEq

/-- UnknownError mirrors `checkout.UnknownError` (error.go). -/
structure UnknownError where
  StatusCode : Nat
deriving DecidableEq

/-- The errors `Client.Call` can return: either a wrapped underlying error
(`errors.Wrap` / `errors.Wrapf`, carrying the wrap context and the cause
message) or a `ServerError`.  The dynamic text of `encoding/json` unmarshal
errors is modelled by the fixed cause string `"json unmarshal error"`, and
the response body is elided from the wrap context. -/
inductive CallErr where
  | wrapped : String → String → CallErr
  | server : ServerError → CallErr
deriving DecidableEq

def headerAuthorization : String := "Authorization"

def headerIdempotency : String := "Cko-Idempotency-Key"

def EndpointLive : String := "https://api.checkout.com"

def EndpointSandbox : String := "https://api.sandbox.checkout.com"

/-- Header.Set semantics of net/http: replace any existing values for the key
with the single given value.  The header names this client sets are already
in canonical form, so key canonicalisation is the identity here. -/
def headerSet (headers : List (String × String)) (key value : String) : List (String × String) :=
  headers.filter (fun p => p.1 != key) ++ [(key, value)]

/-- Header.Get: the value of the first entry with the given key, if any. -/
def headerGet (headers : List (String × String)) (key : String) : Option String :=
  (headers.find? (fun p => p.1 == key)).map (fun p => p.2)

/-- An outgoing HTTP request as built by `Client.Call`.  The body is the JSON
encoding of the request object (none when `reqObj` is nil). -/
structure Request where
  method : String
  url : String
  headers : List (String × String)
  body : Option Json

/-- Outcome of the injected HTTP transport (`HTTPClient.Do`): either an error
with its message, or a delivered response with a status code and a body. -/
inductive TransportResult where
  | failure : String → TransportResult
  | response : Nat → Body → TransportResult

/-- Client mirrors `checkout.Client` (client.go): the injected HTTP transport
plus the endpoint and secret key. -/
structure Client where
  httpClient : Request → TransportResult
  endpoint : String
  secretKey : String

/-- The request `Client.Call` builds before invoking the transport
(client.go lines 95-107): method and endpoint-prefixed URL, Content-Type and
Authorization headers always set, and the idempotency header set exactly
when the supplied key is non-empty. -/
def buildRequest (c : Client) (method path idempotencyKey : String) (reqObj : Option Json) : Request :=
  let headers := headerSet [] "Content-Type" "application/json"
  let headers := headerSet headers headerAuthorization c.secretKey
  let headers :=
    if idempotencyKey ≠ "" then headerSet headers headerIdempotency idempotencyKey else headers
  { method := method, url := c.endpoint ++ path, headers := headers, body := reqObj }

/-- Client.Call (client.go lines 84-156).  `respTarget` models the `respObj`
argument: none is a nil target, and `some dec` is a non-nil target together
with the `json.Unmarshal` decoding into its type `ρ`.  The result is the
returned status code, the decoded response object (some only when a target
was given and decoding ran and succeeded), and the returned error.
Marshalling of `reqObj` is modelled as already done (the parameter is the
JSON value), and request construction succeeds, as it does for every
method/URL the entity clients supply. -/
def Client.Call {ρ : Type} (c : Client) (method path idempotencyKey : String)
    (reqObj : Option Json) (respTarget : Option (Body → Option ρ)) :
    Nat × Option ρ × Option CallErr :=
  let req := buildRequest c method path idempotencyKey reqObj
  match c.httpClient req with
  | TransportResult.failure msg => (0, none, some (CallErr.wrapped "failed to do request" msg))
  | TransportResult.response statusCode body =>
    if 400 ≤ statusCode then
      if statusCode = 401 ∨ statusCode = 429 then
        (statusCode, none, some (CallErr.server { StatusCode := statusCode, Response := none }))
      else if 500 ≤ statusCode ∨ statusCode = 429 ∨ statusCode = 422 then
        match decodeErrorResponse body with
        | none =>
          (statusCode, none,
            some (CallErr.wrapped
              ("failed to unmarshal response error with status " ++ toString statusCode)
              "json unmarshal error"))
        | some errorResponse =>
          (statusCode, none,
            some (CallErr.server { StatusCode := statusCode, Response := some errorResponse }))
      else
        (statusCode, none, none)
    else
      match respTarget with
      | none => (statusCode, none, none)
      | some dec =>
        match dec body with
        | none =>
          (statusCode, none,
            some (CallErr.wrapped "failed to unmarshal response body" "json unmarshal error"))
        | some v => (statusCode, some v, none)

namespace payment

abbrev SourceType := String

abbrev SourceScheme := String

abbrev CardType := String

abbrev Status := String

/-- BillingAddress mirrors `payment.BillingAddress` (payment/client.go). -/
structure BillingAddress where
  AddressLine1 : String
  AddressLine2 : String
  ZIP : String
  City : String
  State : String
  Country : String
deriving DecidableEq, Inhabited

/-- Customer mirrors `payment.Customer` (payment/client.go). -/
structure Customer where
  ID : String
  Email : String
  Name : String
deriving DecidableEq, Inhabited

/-- Risk mirrors `payment.Risk` (payment/client.go). -/
structure Risk where
  Flagged : Bool
deriving DecidableEq, Inhabited

/-- Source mirrors `payment.Source` (payment/client.go).  The Go field `Type`
is named `SrcType` here because `Type` is reserved in Lean. -/
structure Source where
  ID : String
  SrcType : SourceType
  BillingAddress : BillingAddress
  ExpiryMonth : Nat
  ExpiryYear : Nat
  Name : String
  Scheme : SourceScheme
  Last4 : String
  Fingerprint : String
  BIN : String
  CardType : CardType
  CardCategory : String
  Issuer : String
  IssuerCountry : String
  ProductID : String
  ProductType : String
  AVSCheck : String
  CVVCheck : String
deriving DecidableEq, Inhabited

/-- Payment mirrors `payment.Payment` (payment/client.go).  The `time.Time`
field `ProcessedOn` is modelled as its RFC3339 string. -/
structure Payment where
  ID : String
  ActionID : String
  Amount : Nat
  Currency : String
  Approved : Bool
  Status : Status
  AuthCode : String
  ECI : String
  SchemeID : String
  ResponseCode : String
  ResponseSummary : String
  Risk : Risk
  Source : Source
  Customer : Customer
  ProcessedOn : String
  Reference : String
deriving DecidableEq, Inhabited

/-- Error mirrors `payment.Error` (payment/client.go). -/
structure Error where
  Reason : String
deriving DecidableEq

/-- The errors a payment operation can return, as a union of the concrete
error types the Go code produces: an error propagated from the caller, a
domain `payment.Error`, or a `checkout.UnknownError`. -/
inductive OpError where
  | fromCall : CallErr → OpError
  | domain : Error → OpError
  | unknown : UnknownError → OpError
deriving DecidableEq

def ErrPaymentNotFound : Error := { Reason := "Payment not found" }

def ErrVoidNotAllowed : Error := { Reason := "Void not allowed" }

def ErrRefundNotAllowed : Error := { Reason := "Refund not allowed" }

def ErrCaptureNotAllowed : Error := { Reason := "Capture not allowed" }

def paymentsPath : String := "/payments"

/-- Caller mirrors the `payment.Caller` interface, specialised to the two
shapes of `respObj` the payment operations use: `respIsPayment = true`
models passing a `*Payment`, `false` models passing nil.  The `Payment`
component of the result is the content of that target after the call (the
zero value when nothing was decoded); `reqObj` is modelled as the JSON
encoding of the params. -/
structure Caller where
  call : String → String → String → Option Json → Bool → Nat × Payment × Option CallErr

/-- Client mirrors `payment.Client` (payment/client.go). -/
structure Client where
  caller : Caller

/-- The dispatcher arguments an operation fixes: method, path and
idempotency key. -/
structure CallArgs where
  method : String
  path : String
  idempotencyKey : String
deriving DecidableEq

/-- Dispatcher arguments of `Create`: POST to the payments path with the
caller-supplied idempotency key. -/
def Create.args (idempotencyKey : String) : CallArgs :=
  { method := "POST", path := paymentsPath, idempotencyKey := idempotencyKey }

/-- Dispatcher arguments of `Void`: POST to the voids path with an empty
idempotency key. -/
def Void.args (paymentID : String) : CallArgs :=
  { method := "POST", path := paymentsPath ++ "/" ++ paymentID ++ "/voids", idempotencyKey := "" }

/-- Dispatcher arguments of `Refund`: POST to the refunds path with the
caller-supplied idempotency key. -/
def Refund.args (paymentID idempotencyKey : String) : CallArgs :=
  { method := "POST", path := paymentsPath ++ "/" ++ paymentID ++ "/refunds",
    idempotencyKey := idempotencyKey }

/-- Dispatcher arguments of `Capture`: POST to the captures path with an
empty idempotency key. -/
def Capture.args (paymentID : String) : CallArgs :=
  { method := "POST", path := paymentsPath ++ "/" ++ paymentID ++ "/captures",
    idempotencyKey := "" }

/-- Client.Create (payment/client.go lines 179-192): dispatch with a Payment
target, propagate a non-nil error, then switch on the status code: 201 and
202 return the decoded payment, anything else an UnknownError. -/
def Client.Create (c : Client) (idempotencyKey : String) (params : Option Json) :
    Option Payment × Option OpError :=
  let a := Create.args idempotencyKey
  match c.caller.call a.method a.path a.idempotencyKey params true with
  | (_, _, some e) => (none, some (OpError.fromCall e))
  | (statusCode, payment, none) =>
    if statusCode = 201 ∨ statusCode = 202 then (some payment, none)
    else (none, some (OpError.unknown { StatusCode := statusCode }))

/-- Client.Void (payment/client.go lines 196-212). -/
def Client.Void (c : Client) (paymentID : String) (params : Option Json) : Option OpError :=
  let a := Void.args paymentID
  match c.caller.call a.method a.path a.idempotencyKey params false with
  | (_, _, some e) => some (OpError.fromCall e)
  | (statusCode, _, none) =>
    if statusCode = 202 then none
    else if statusCode = 403 then some (OpError.domain ErrVoidNotAllowed)
    else if statusCode = 404 then some (OpError.domain ErrPaymentNotFound)
    else some (OpError.unknown { StatusCode := statusCode })

/-- Client.Refund (payment/client.go lines 216-233). -/
def Client.Refund (c : Client) (paymentID idempotencyKey : String) (params : Option Json) :
    Option OpError :=
  let a := Refund.args paymentID idempotencyKey
  match c.caller.call a.method a.path a.idempotencyKey params false with
  | (_, _, some e) => some (OpError.fromCall e)
  | (statusCode, _, none) =>
    if statusCode = 202 then none
    else if statusCode = 403 then some (OpError.domain ErrRefundNotAllowed)
    else if statusCode = 404 then some (OpError.domain ErrPaymentNotFound)
    else some (OpError.unknown { StatusCode := statusCode })

/-- Client.Capture (payment/client.go lines 237-253). -/
def Client.Capture (c : Client) (paymentID : String) (params : Option Json) : Option OpError :=
  let a := Capture.args paymentID
  match c.caller.call a.method a.path a.idempotencyKey params false with
  | (_, _, some e) => some (OpError.fromCall e)
  | (statusCode, _, none) =>
    if statusCode = 202 then none
    else if statusCode = 403 then some (OpError.domain ErrCaptureNotAllowed)
    else if statusCode = 404 then some (OpError.domain ErrPaymentNotFound)
    else some (OpError.unknown { StatusCode := statusCode })

end payment

/-- A client whose injected transport returns the same result for every
request: used to instantiate the universally quantified theorems below at
concrete inputs. -/
def demoClient (r : TransportResult) : Client :=
  { httpClient := fun _ => r, endpoint := EndpointLive, secretKey := "sk_test" }

/-- A concrete response body that decodes as the error envelope. -/
def envBody : Body :=
  Body.json (Json.obj
    [("request_id", Json.str "req_1"),
     ("error_type", Json.str "request_invalid"),
     ("error_codes", Json.arr [Json.str "card_number_invalid"])])

/-- The envelope `envBody` decodes to. -/
def envelope1 : ErrorResponse :=
  { request_id := "req_1", error_type := "request_invalid",
    error_codes := ["card_number_invalid"] }

/-- A payment caller that ignores its arguments and reports the given status
code with a nil error: used to instantiate the payment theorems at concrete
inputs. -/
def constStatusCaller (statusCode : Nat) : payment.Caller :=
  { call := fun _ _ _ _ _ => (statusCode, default, none) }

/-- Claim C5: for every call to `Client.Call`, the Cko-Idempotency-Key header
is set on the outgoing HTTP request (the request `Call` hands to the
transport, `buildRequest`) if and only if the supplied idempotency key is a
non-empty string, and when set its value equals that key. -/
theorem call_idempotency_header_iff (c : Client) (method path idempotencyKey : String)
    (reqObj : Option Json) :
    (idempotencyKey ≠ "" →
      headerGet (buildRequest c method path idempotencyKey reqObj).headers headerIdempotency
        = some idempotencyKey) ∧
    (idempotencyKey = "" →
      headerGet (buildRequest c method path idempotencyKey reqObj).headers headerIdempotency
        = none) := by
  constructor
  · intro hne
    show headerGet (buildRequest c method path idempotencyKey reqObj).headers headerIdempotency
        = some idempotencyKey
    simp only [buildRequest]
    rw [if_pos hne]
    rfl
  · intro he
    subst he
    rfl

/-- Witness for C5 at concrete inputs: a non-empty key is set verbatim and an
empty key leaves the header absent. -/
theorem call_idempotency_header_iff_witness :
    headerGet (buildRequest (demoClient (TransportResult.response 200 (Body.json Json.null)))
        "POST" "/payments" "idem-1" none).headers headerIdempotency = some "idem-1" ∧
    headerGet (buildRequest (demoClient (TransportResult.response 200 (Body.json Json.null)))
        "POST" "/payments" "" none).headers headerIdempotency = none :=
  ⟨(call_idempotency_header_iff (demoClient (TransportResult.response 200 (Body.json Json.null)))
      "POST" "/payments" "idem-1" none).1 (by decide),
   (call_idempotency_header_iff (demoClient (TransportResult.response 200 (Body.json Json.null)))
      "POST" "/payments" "" none).2 rfl⟩

/-- Claim C6: whenever the injected transport itself fails, `Client.Call`
returns status code 0 together with a non-nil error that wraps the
transport's error as its cause. -/
theorem call_transport_failure {ρ : Type} (c : Client) (method path idempotencyKey : String)
    (reqObj : Option Json) (respTarget : Option (Body → Option ρ)) (msg : String)
    (hfail : c.httpClient (buildRequest c method path idempotencyKey reqObj)
      = TransportResult.failure msg) :
    c.Call method path idempotencyKey reqObj respTarget
      = (0, none, some (CallErr.wrapped "failed to do request" msg)) := by
  simp only [Client.Call, hfail]

/-- Witness for C6: a transport failing with message "do_error" yields status
0 and the wrapped cause, as in TestCall_WithTransportError. -/
theorem call_transport_failure_witness :
    (demoClient (TransportResult.failure "do_error")).Call "POST" "/somepath" "" none
        (none : Option (Body → Option Unit))
      = (0, none, some (CallErr.wrapped "failed to do request" "do_error")) :=
  call_transport_failure (demoClient (TransportResult.failure "do_error")) "POST" "/somepath" ""
    none (none : Option (Body → Option Unit)) "do_error" rfl

/-- Claim C3: for every delivered response whose status code is in 400..499
but not in \x7b401, 422, 429\x7d, `Client.Call` returns that status code
together with a nil error (and decodes nothing), leaving interpretation to
the entity clients. -/
theorem call_other_4xx_nil_error {ρ : Type} (c : Client) (method path idempotencyKey : String)
    (reqObj : Option Json) (respTarget : Option (Body → Option ρ)) (statusCode : Nat)
    (body : Body)
    (hresp : c.httpClient (buildRequest c method path idempotencyKey reqObj)
      = TransportResult.response statusCode body)
    (h400 : 400 ≤ statusCode) (h500 : statusCode < 500)
    (h401 : statusCode ≠ 401) (h422 : statusCode ≠ 422) (h429 : statusCode ≠ 429) :
    c.Call method path idempotencyKey reqObj respTarget = (statusCode, none, none) := by
  have hA : ¬ (statusCode = 401 ∨ statusCode = 429) := by omega
  have hB : ¬ (500 ≤ statusCode ∨ statusCode = 429 ∨ statusCode = 422) := by omega
  simp only [Client.Call, hresp, if_pos h400, if_neg hA, if_neg hB]

/-- Witness for C3: a delivered 404 yields status 404 and a nil error. -/
theorem call_other_4xx_nil_error_witness :
    (demoClient (TransportResult.response 404 (Body.malformed "not json"))).Call "POST"
        "/payments/p1" "" none (none : Option (Body → Option Unit))
      = (404, none, none) :=
  call_other_4xx_nil_error (demoClient (TransportResult.response 404 (Body.malformed "not json")))
    "POST" "/payments/p1" "" none (none : Option (Body → Option Unit)) 404
    (Body.malformed "not json") rfl (by decide) (by decide) (by decide) (by decide) (by decide)

/-- Claim C7: for every delivered response with status code 200, `Client.Call`
decodes the body into the supplied response target and returns status 200
with a nil error when the body is valid JSON for that target; when no target
is supplied the body is not decoded (any body, even undecodable, is
accepted) and the result is still status 200 with a nil error. -/
theorem call_status_200_decodes {ρ : Type} (c : Client) (method path idempotencyKey : String)
    (reqObj : Option Json) (body : Body)
    (hresp : c.httpClient (buildRequest c method path idempotencyKey reqObj)
      = TransportResult.response 200 body) :
    (∀ (dec : Body → Option ρ) (v : ρ), dec body = some v →
      c.Call method path idempotencyKey reqObj (some dec) = (200, some v, none)) ∧
    c.Call method path idempotencyKey reqObj (none : Option (Body → Option ρ))
      = (200, none, none) := by
  constructor
  · intro dec v hdec
    simp only [Client.Call, hresp]
    norm_num
    simp only [hdec]
  · simp only [Client.Call, hresp]
    norm_num

/-- Witness for C7: a 200 response whose body decodes for the given target is
returned decoded with a nil error. -/
theorem call_status_200_decodes_witness :
    (demoClient (TransportResult.response 200 envBody)).Call "POST" "/payments" "" none
        (some decodeErrorResponse) = (200, some envelope1, none) ∧
    (demoClient (TransportResult.response 200 envBody)).Call "POST" "/payments" "" none
        (none : Option (Body → Option ErrorResponse)) = (200, none, none) :=
  ⟨(call_status_200_decodes (demoClient (TransportResult.response 200 envBody)) "POST"
      "/payments" "" none envBody rfl).1 decodeErrorResponse envelope1 rfl,
   (call_status_200_decodes (demoClient (TransportResult.response 200 envBody)) "POST"
      "/payments" "" none envBody rfl).2⟩

/-- Counterexample to claim C1 as stated: a delivered 401 response whose body
decodes as the error envelope does not produce a `ServerError` carrying that
envelope — the 401/429 case returns before the envelope is decoded, so the
`Response` field is none. -/
theorem call_envelope_claim_c1_false :
    ¬ (∀ (c : Client) (method path idempotencyKey : String) (reqObj : Option Json)
        (statusCode : Nat) (body : Body) (er : ErrorResponse),
        c.httpClient (buildRequest c method path idempotencyKey reqObj)
          = TransportResult.response statusCode body →
        (500 ≤ statusCode ∨ statusCode = 401 ∨ statusCode = 429 ∨ statusCode = 422) →
        decodeErrorResponse body = some er →
        c.Call method path idempotencyKey reqObj (none : Option (Body → Option Unit))
          = (statusCode, none,
              some (CallErr.server { StatusCode := statusCode, Response := some er }))) := by
  intro h
  have h2 := h (demoClient (TransportResult.response 401 envBody)) "POST" "/payments" "" none
    401 envBody envelope1 rfl (by decide) rfl
  have h3 : (demoClient (TransportResult.response 401 envBody)).Call "POST" "/payments" "" none
      (none : Option (Body → Option Unit))
      = (401, none, some (CallErr.server { StatusCode := 401, Response := none })) := rfl
  rw [h3] at h2
  simp at h2

/-- Claim C1 (amended): for a delivered response with status ≥ 500 or 422
whose body decodes as the error envelope, `Client.Call` returns a
`ServerError` whose Response field contains the decoded envelope; for status
401 or 429 it returns a `ServerError` carrying only the status code, with no
decoded envelope. -/
theorem call_envelope_server_error {ρ : Type} (c : Client)
    (method path idempotencyKey : String) (reqObj : Option Json)
    (respTarget : Option (Body → Option ρ)) (statusCode : Nat) (body : Body)
    (er : ErrorResponse)
    (hresp : c.httpClient (buildRequest c method path idempotencyKey reqObj)
      = TransportResult.response statusCode body) :
    ((500 ≤ statusCode ∨ statusCode = 422) → decodeErrorResponse body = some er →
      c.Call method path idempotencyKey reqObj respTarget
        = (statusCode, none,
            some (CallErr.server { StatusCode := statusCode, Response := some er }))) ∧
    ((statusCode = 401 ∨ statusCode = 429) →
      c.Call method path idempotencyKey reqObj respTarget
        = (statusCode, none,
            some (CallErr.server { StatusCode := statusCode, Response := none }))) := by
  constructor
  · intro hs hdec
    have h400 : 400 ≤ statusCode := by omega
    have hA : ¬ (statusCode = 401 ∨ statusCode = 429) := by omega
    have hB : 500 ≤ statusCode ∨ statusCode = 429 ∨ statusCode = 422 := by omega
    simp only [Client.Call, hresp, if_pos h400, if_neg hA, if_pos hB, hdec]
  · intro hs
    have h400 : 400 ≤ statusCode := by omega
    simp only [Client.Call, hresp, if_pos h400, if_pos hs]

/-- Witness for the amended C1: a delivered 500 with a decodable envelope
yields a `ServerError` containing that envelope, and a delivered 429 yields
a `ServerError` with no envelope. -/
theorem call_envelope_server_error_witness :
    (demoClient (TransportResult.response 500 envBody)).Call "POST" "/payments" "" none
        (none : Option (Body → Option Unit))
      = (500, none, some (CallErr.server { StatusCode := 500, Response := some envelope1 })) ∧
    (demoClient (TransportResult.response 429 envBody)).Call "POST" "/payments" "" none
        (none : Option (Body → Option Unit))
      = (429, none, some (CallErr.server { StatusCode := 429, Response := none })) :=
  ⟨(call_envelope_server_error (demoClient (TransportResult.response 500 envBody)) "POST"
      "/payments" "" none (none : Option (Body → Option Unit)) 500 envBody envelope1 rfl).1
      (by decide) rfl,
   (call_envelope_server_error (demoClient (TransportResult.response 429 envBody)) "POST"
      "/payments" "" none (none : Option (Body → Option Unit)) 429 envBody envelope1 rfl).2
      (by decide)⟩

/-- Claim C9: for every delivered response whose status code selects the
envelope-decoding branch of `Client.Call` (≥ 500 or 422, past the 401/429
case) but whose body does not decode as the error envelope, `Call` returns
the actual status code — which is non-zero — together with a wrapped
unmarshal error rather than a `ServerError`. -/
theorem call_envelope_unmarshal_failure {ρ : Type} (c : Client)
    (method path idempotencyKey : String) (reqObj : Option Json)
    (respTarget : Option (Body → Option ρ)) (statusCode : Nat) (body : Body)
    (hresp : c.httpClient (buildRequest c method path idempotencyKey reqObj)
      = TransportResult.response statusCode body)
    (hs : 500 ≤ statusCode ∨ statusCode = 422)
    (hdec : decodeErrorResponse body = none) :
    c.Call method path idempotencyKey reqObj respTarget
      = (statusCode, none,
          some (CallErr.wrapped
            ("failed to unmarshal response error with status " ++ toString statusCode)
            "json unmarshal error")) ∧
    statusCode ≠ 0 := by
  have h400 : 400 ≤ statusCode := by omega
  have hA : ¬ (statusCode = 401 ∨ statusCode = 429) := by omega
  have hB : 500 ≤ statusCode ∨ statusCode = 429 ∨ statusCode = 422 := by omega
  constructor
  · simp only [Client.Call, hresp, if_pos h400, if_neg hA, if_pos hB, hdec]
  · omega

/-- Witness for C9: a delivered 500 whose body is not valid JSON yields
status 500 and a wrapped unmarshal error. -/
theorem call_envelope_unmarshal_failure_witness :
    (demoClient (TransportResult.response 500 (Body.malformed "oops"))).Call "POST" "/payments"
        "" none (none : Option (Body → Option Unit))
      = (500, none,
          some (CallErr.wrapped "failed to unmarshal response error with status 500"
            "json unmarshal error")) ∧
    (500 : Nat) ≠ 0 :=
  call_envelope_unmarshal_failure (demoClient (TransportResult.response 500
      (Body.malformed "oops"))) "POST" "/payments" "" none (none : Option (Body → Option Unit))
    500 (Body.malformed "oops") rfl (by decide) rfl

/-- Claim C2: when the dispatcher returns a nil error, the payment client's
`Capture` is determined solely by the returned status code: 202 yields nil,
403 yields the capture-not-allowed domain error, 404 yields the
payment-not-found domain error, and every other status code yields the
opaque `UnknownError` carrying that status code. -/
theorem capture_status_dispatch (c : payment.Client) (paymentID : String)
    (params : Option Json) (statusCode : Nat) (pay : payment.Payment)
    (hcall : c.caller.call (payment.Capture.args paymentID).method
        (payment.Capture.args paymentID).path
        (payment.Capture.args paymentID).idempotencyKey params false
      = (statusCode, pay, none)) :
    c.Capture paymentID params
      = (if statusCode = 202 then none
         else if statusCode = 403 then some (payment.OpError.domain payment.ErrCaptureNotAllowed)
         else if statusCode = 404 then some (payment.OpError.domain payment.ErrPaymentNotFound)
         else some (payment.OpError.unknown { StatusCode := statusCode })) := by
  simp only [payment.Client.Capture, hcall]

/-- Witness for C2 at status 403: `Capture` returns the capture-not-allowed
domain error. -/
theorem capture_status_dispatch_witness :
    payment.Client.Capture { caller := constStatusCaller 403 } "pay_1" none
      = some (payment.OpError.domain payment.ErrCaptureNotAllowed) := by
  rw [capture_status_dispatch { caller := constStatusCaller 403 } "pay_1" none 403 default rfl]
  rfl

/-- Counterexample to claim C4 as stated: a dispatcher reporting status 200
with a nil error does not make `Create` succeed — 200 is not among the
success cases of its switch, so `Create` returns no payment and an
`UnknownError`. -/
theorem create_claim_c4_false :
    ¬ (∀ (c : payment.Client) (idempotencyKey : String) (params : Option Json)
        (statusCode : Nat) (pay : payment.Payment),
        c.caller.call (payment.Create.args idempotencyKey).method
            (payment.Create.args idempotencyKey).path
            (payment.Create.args idempotencyKey).idempotencyKey params true
          = (statusCode, pay, none) →
        (statusCode = 200 ∨ statusCode = 201 ∨ statusCode = 202) →
        c.Create idempotencyKey params = (some pay, none)) := by
  intro h
  have h2 := h { caller := constStatusCaller 200 } "" none 200 default rfl (Or.inl rfl)
  have h3 : payment.Client.Create { caller := constStatusCaller 200 } "" none
      = (none, some (payment.OpError.unknown { StatusCode := 200 })) := rfl
  rw [h3] at h2
  simp at h2

/-- Claim C4 (amended): the payment client's `Create` treats exactly the
status codes 201 and 202 as success, returning the decoded Payment with a
nil error; status 200, although listed as a success code in the approximate
contract, yields the opaque `UnknownError` carrying 200. -/
theorem create_success_statuses (c : payment.Client) (idempotencyKey : String)
    (params : Option Json) (statusCode : Nat) (pay : payment.Payment)
    (hcall : c.caller.call (payment.Create.args idempotencyKey).method
        (payment.Create.args idempotencyKey).path
        (payment.Create.args idempotencyKey).idempotencyKey params true
      = (statusCode, pay, none)) :
    ((statusCode = 201 ∨ statusCode = 202) →
      c.Create idempotencyKey params = (some pay, none)) ∧
    (statusCode = 200 →
      c.Create idempotencyKey params
        = (none, some (payment.OpError.unknown { StatusCode := 200 }))) := by
  constructor
  · intro hs
    simp only [payment.Client.Create, hcall, if_pos hs]
  · intro hs
    subst hs
    have hA : ¬ ((200 : Nat) = 201 ∨ (200 : Nat) = 202) := by omega
    simp only [payment.Client.Create, hcall, if_neg hA]

/-- Witness for the amended C4: status 201 returns the decoded payment, and
status 200 returns the unknown-status error. -/
theorem create_success_statuses_witness :
    payment.Client.Create { caller := constStatusCaller 201 } "idem" none
      = (some default, none) ∧
    payment.Client.Create { caller := constStatusCaller 200 } "idem" none
      = (none, some (payment.OpError.unknown { StatusCode := 200 })) :=
  ⟨(create_success_statuses { caller := constStatusCaller 201 } "idem" none 201 default rfl).1
      (Or.inl rfl),
   (create_success_statuses { caller := constStatusCaller 200 } "idem" none 200 default rfl).2
      rfl⟩

/-- Claim C8: for every call to the payment client's `Create`, exactly one of
the two results is present: either a payment with no error, or no payment
with an error — never both, never neither. -/
theorem create_payment_xor_error (c : payment.Client) (idempotencyKey : String)
    (params : Option Json) :
    ((c.Create idempotencyKey params).1.isSome ∧ (c.Create idempotencyKey params).2.isNone) ∨
    ((c.Create idempotencyKey params).1.isNone ∧ (c.Create idempotencyKey params).2.isSome) := by
  unfold payment.Client.Create
  rcases hcall : c.caller.call (payment.Create.args idempotencyKey).method
      (payment.Create.args idempotencyKey).path
      (payment.Create.args idempotencyKey).idempotencyKey params true with ⟨statusCode, pay, e⟩
  cases e with
  | none =>
    simp only [hcall]
    by_cases hs : statusCode = 201 ∨ statusCode = 202
    · rw [if_pos hs]
      left
      exact ⟨rfl, rfl⟩
    · rw [if_neg hs]
      right
      exact ⟨rfl, rfl⟩
  | some err =>
    simp only [hcall]
    right
    exact ⟨rfl, rfl⟩

/-- Claim C10: the payment client's `Void` and `Capture` always invoke the
dispatcher with an empty idempotency key, so the request the checkout client
builds for them never carries the Cko-Idempotency-Key header, while `Create`
and `Refund` pass the caller-supplied key through. -/
theorem void_capture_empty_idempotency (c : Client) (paymentID idempotencyKey : String)
    (reqObj : Option Json) :
    (payment.Void.args paymentID).idempotencyKey = "" ∧
    (payment.Capture.args paymentID).idempotencyKey = "" ∧
    (payment.Create.args idempotencyKey).idempotencyKey = idempotencyKey ∧
    (payment.Refund.args paymentID idempotencyKey).idempotencyKey = idempotencyKey ∧
    headerGet (buildRequest c (payment.Void.args paymentID).method
        (payment.Void.args paymentID).path (payment.Void.args paymentID).idempotencyKey
        reqObj).headers headerIdempotency = none ∧
    headerGet (buildRequest c (payment.Capture.args paymentID).method
        (payment.Capture.args paymentID).path (payment.Capture.args paymentID).idempotencyKey
        reqObj).headers headerIdempotency = none :=
  ⟨rfl, rfl, rfl, rfl, rfl, rfl⟩
